import Mathlib

/-!
Verification of the ThunderScope inter-process packet bridge (bridge.cpp).

The bridge moves length-framed binary packets between a native process and a
controller process over local transports (named pipes on Windows, unix domain
sockets elsewhere).  We embed the packet model, the Transmit Engine's wire
serialization (TxJob), the Receive Engine's header/payload reconstruction
(RxJob), the queue-drain step, the lifecycle operations (TxStart/TxStop,
RxStop, InitTxBridge) and the allocation effects of the cleanup code, and
prove or refute the specified properties.
-/

namespace Bridge

/-- Modelled from the spec: the packet header bridge.hpp is not in the sources;
the EVPacket struct is reconstructed from the spec data model (section 3) and
from every field access in bridge.cpp: `command`, `packetID`, `dataSize` are
uint16 fields and `data` points to `dataSize` payload bytes. -/
structure EVPacket where
  command : Nat
  packetID : Nat
  dataSize : Nat
  data : List Nat
deriving Repr, DecidableEq

/-- Modelled from the spec: BRIDGE_BUFFER_SIZE is defined in the missing header
bridge.hpp; the spec fixes the transport buffer capacity at 4096 bytes
(MAX_PAYLOAD = 4090 = 4096 minus the 6-byte header). -/
def BRIDGE_BUFFER_SIZE : Nat := 4096

/-- Maximum payload size: buffer capacity minus the 6-byte header. -/
def MAX_PAYLOAD : Nat := BRIDGE_BUFFER_SIZE - 6

/-- Little-endian byte pair of a uint16 value, as stored by the
`uint16_t* txBuffCast` writes in TxJob (bridge.cpp lines 166-170). -/
def le16 (x : Nat) : List Nat := [x % 256, x / 256 % 256]

/-- Little-endian uint16 read at byte offset `i` of a buffer, as performed by
the `((uint16_t*)(rxBuff))[k]` reads in RxJob (bridge.cpp lines 248, 290-297). -/
def rd16 (b : List Nat) (i : Nat) : Nat := b.getD i 0 + 256 * b.getD (i + 1) 0

/-- TxJob wire serialization (bridge.cpp lines 166-171): the three uint16
header fields `command`, `packetID`, `dataSize` in that order, each
little-endian, followed by `memcpy(tx_buff+6, txPacket->data, txPacket->dataSize)`,
i.e. the first `dataSize` payload bytes. -/
def txSerialize (p : EVPacket) : List Nat :=
  le16 p.command ++ le16 p.packetID ++ le16 p.dataSize ++ p.data.take p.dataSize

/-- RxJob packet reconstruction (bridge.cpp lines 290-307): parse the three
header fields from the receive buffer; if the declared `dataSize` is at most
`BRIDGE_BUFFER_SIZE - 6`, copy `dataSize` payload bytes from offset 6,
otherwise substitute a 1-byte placeholder payload (`malloc(1)`, whose content
is unspecified; modelled as the single byte 0) and set `dataSize` to 1. -/
def rxReconstruct (buf : List Nat) : EVPacket :=
  let dataSize := rd16 buf 4
  if dataSize ≤ BRIDGE_BUFFER_SIZE - 6 then
    { command := rd16 buf 0
      packetID := rd16 buf 2
      dataSize := dataSize
      data := (buf.drop 6).take dataSize }
  else
    { command := rd16 buf 0
      packetID := rd16 buf 2
      dataSize := 1
      data := [0] }

/-- Number of payload bytes RxJob copies out of the receive buffer during
reconstruction (the `memcpy(rxPacket->data, rxBuffData, rxPacket->dataSize)`
on the valid branch, bridge.cpp lines 299-301; the invalid branch copies no
buffer bytes). -/
def rxCopyCount (buf : List Nat) : Nat :=
  if rd16 buf 4 ≤ BRIDGE_BUFFER_SIZE - 6 then rd16 buf 4 else 0

/-- A uint16 is reassembled from its little-endian byte pair. -/
theorem le16_round (c : Nat) (h : c < 65536) : c % 256 + 256 * (c / 256 % 256) = c := by
  omega

/-- The serialized frame laid out as explicit bytes. -/
theorem txSerialize_eq (c i d : Nat) (pl : List Nat) :
    txSerialize ⟨c, i, d, pl⟩ =
      c % 256 :: c / 256 % 256 :: i % 256 :: i / 256 % 256 ::
        d % 256 :: d / 256 % 256 :: pl.take d := by
  simp [txSerialize, le16]

/-- Reading 16-bit fields back from an explicitly laid out 6-byte header. -/
theorem rd16_explicit (b0 b1 b2 b3 b4 b5 : Nat) (t : List Nat) :
    rd16 (b0 :: b1 :: b2 :: b3 :: b4 :: b5 :: t) 0 = b0 + 256 * b1 ∧
    rd16 (b0 :: b1 :: b2 :: b3 :: b4 :: b5 :: t) 2 = b2 + 256 * b3 ∧
    rd16 (b0 :: b1 :: b2 :: b3 :: b4 :: b5 :: t) 4 = b4 + 256 * b5 :=
  ⟨rfl, rfl, rfl⟩

/-- Claim C1: serializing a Packet with `0 ≤ dataSize ≤ MAX_PAYLOAD` with the
Transmit Engine's wire encoding and parsing the bytes with the Receive
Engine's reconstruction yields a Packet with identical `command`, `packetID`
and payload bytes. -/
theorem rx_roundtrip (p : EVPacket) (hlen : p.data.length = p.dataSize)
    (hsize : p.dataSize ≤ MAX_PAYLOAD)
    (hc : p.command < 65536) (hid : p.packetID < 65536) :
    (rxReconstruct (txSerialize p)).command = p.command ∧
    (rxReconstruct (txSerialize p)).packetID = p.packetID ∧
    (rxReconstruct (txSerialize p)).data = p.data := by
  obtain ⟨c, i, d, pl⟩ := p
  simp only at hlen hsize hc hid
  have hd : d < 65536 := lt_of_le_of_lt hsize (by decide)
  obtain ⟨h0, h2, h4⟩ := rd16_explicit (c % 256) (c / 256 % 256) (i % 256)
    (i / 256 % 256) (d % 256) (d / 256 % 256) (pl.take d)
  rw [txSerialize_eq]
  simp only [rxReconstruct, h0, h2, h4, le16_round c hc, le16_round i hid,
    le16_round d hd]
  rw [if_pos (show d ≤ BRIDGE_BUFFER_SIZE - 6 from hsize)]
  refine ⟨rfl, rfl, ?_⟩
  simp only [List.drop_succ_cons, List.drop_zero, List.take_take, min_self]
  rw [← hlen, List.take_length]

/-- Claim C1 witness: the round trip at a concrete small Packet. -/
theorem rx_roundtrip_witness :
    (rxReconstruct (txSerialize ⟨1, 2, 3, [7, 8, 9]⟩)).command = 1 ∧
    (rxReconstruct (txSerialize ⟨1, 2, 3, [7, 8, 9]⟩)).packetID = 2 ∧
    (rxReconstruct (txSerialize ⟨1, 2, 3, [7, 8, 9]⟩)).data = [7, 8, 9] :=
  rx_roundtrip ⟨1, 2, 3, [7, 8, 9]⟩ (by decide) (by decide) (by decide) (by decide)

/-- Claim C2: the Transmit Engine serializes the test Packet
`{command:1, packetID:0x0808, payload:[1,2,3,4,5]}` into exactly 6 + 5 = 11
bytes whose first 6 bytes are `01 00 08 08 05 00` followed by `01 02 03 04 05`. -/
theorem test_packet_wire :
    (txSerialize ⟨1, 0x0808, 5, [1, 2, 3, 4, 5]⟩).length = 6 + 5 ∧
    (txSerialize ⟨1, 0x0808, 5, [1, 2, 3, 4, 5]⟩).take 6 =
      [0x01, 0x00, 0x08, 0x08, 0x05, 0x00] ∧
    (txSerialize ⟨1, 0x0808, 5, [1, 2, 3, 4, 5]⟩).drop 6 = [1, 2, 3, 4, 5] := by
  decide

/-- Claim C3: a received header declaring `dataSize > MAX_PAYLOAD` makes RxJob copy
no payload bytes out of the receive buffer and substitute a 1-byte placeholder
payload; moreover every reconstructed Packet satisfies
`dataSize ≤ MAX_PAYLOAD`, and the payload copy always stays within the
`BRIDGE_BUFFER_SIZE`-byte receive buffer. -/
theorem oversize_safety (buf : List Nat) (h : MAX_PAYLOAD < rd16 buf 4) :
    (rxReconstruct buf).dataSize = 1 ∧
    (rxReconstruct buf).data.length = 1 ∧
    rxCopyCount buf = 0 ∧
    (∀ b : List Nat, (rxReconstruct b).dataSize ≤ MAX_PAYLOAD ∧
      rxCopyCount b ≤ MAX_PAYLOAD ∧ 6 + rxCopyCount b ≤ BRIDGE_BUFFER_SIZE) := by
  have hnot : ¬ rd16 buf 4 ≤ BRIDGE_BUFFER_SIZE - 6 := not_le.mpr h
  refine ⟨?_, ?_, ?_, ?_⟩
  · simp only [rxReconstruct, if_neg hnot]
  · simp only [rxReconstruct, if_neg hnot, List.length_singleton]
  · simp only [rxCopyCount, if_neg hnot]
  · intro b
    by_cases hb : rd16 b 4 ≤ BRIDGE_BUFFER_SIZE - 6
    · simpa only [rxReconstruct, rxCopyCount, if_pos hb] using
        ⟨hb, hb, by simp only [MAX_PAYLOAD, BRIDGE_BUFFER_SIZE] at hb ⊢; omega⟩
    · simp only [rxReconstruct, rxCopyCount, if_neg hb]
      refine ⟨by decide, by decide, by decide⟩

/-- Claim C3 witness: a header declaring dataSize 5000 (bytes 88 13 little-endian
at offset 4) is rejected with the placeholder payload. -/
theorem oversize_safety_witness :
    (rxReconstruct [0, 0, 0, 0, 136, 19]).dataSize = 1 ∧
    (rxReconstruct [0, 0, 0, 0, 136, 19]).data.length = 1 ∧
    rxCopyCount [0, 0, 0, 0, 136, 19] = 0 ∧
    (∀ b : List Nat, (rxReconstruct b).dataSize ≤ MAX_PAYLOAD ∧
      rxCopyCount b ≤ MAX_PAYLOAD ∧ 6 + rxCopyCount b ≤ BRIDGE_BUFFER_SIZE) :=
  oversize_safety [0, 0, 0, 0, 136, 19] (by decide)

/-- Outcome of one named-pipe receive iteration: either a reconstructed Packet
is delivered to the processing hook, or the iteration `continue`s without
reading a payload. -/
inductive PipeRxOutcome
  | delivered (p : EVPacket)
  | skipped
deriving Repr, DecidableEq

/-- One iteration of the named-pipe (WIN32) RxJob after a successful 6-byte
header read (bridge.cpp lines 248-253 and 290-310): the payload is read and the
Packet reconstructed only when the declared `dataSize` passes the strict guard
`dataSize < BRIDGE_BUFFER_SIZE - 6`; otherwise the loop `continue`s to the
next iteration. -/
def pipeRxIteration (buf : List Nat) : PipeRxOutcome :=
  if rd16 buf 4 < BRIDGE_BUFFER_SIZE - 6 then
    PipeRxOutcome.delivered (rxReconstruct buf)
  else
    PipeRxOutcome.skipped

/-- Claim C10: a frame declaring `dataSize` exactly `BRIDGE_BUFFER_SIZE - 6` (the
maximum valid payload) fails the strict pre-read guard, so the named-pipe
iteration skips it and delivers nothing — even though the later reconstruction
check would accept it (its non-strict comparison keeps `dataSize` rather than
substituting the placeholder). -/
theorem max_size_frame_skipped (buf : List Nat)
    (h : rd16 buf 4 = BRIDGE_BUFFER_SIZE - 6) :
    pipeRxIteration buf = PipeRxOutcome.skipped ∧
    (rxReconstruct buf).dataSize = BRIDGE_BUFFER_SIZE - 6 := by
  constructor
  · simp only [pipeRxIteration, h, lt_irrefl, if_false]
  · simp only [rxReconstruct, h, le_refl, if_true]

/-- Claim C10 witness: header bytes FA 0F at offset 4 declare dataSize 4090 =
BRIDGE_BUFFER_SIZE - 6; the pipe iteration skips the frame. -/
theorem max_size_frame_skipped_witness :
    pipeRxIteration [0, 0, 0, 0, 250, 15] = PipeRxOutcome.skipped ∧
    (rxReconstruct [0, 0, 0, 0, 250, 15]).dataSize = BRIDGE_BUFFER_SIZE - 6 :=
  max_size_frame_skipped [0, 0, 0, 0, 250, 15] (by decide)

/-- The transmit-side queue state visible to TxJob: the member queue
`_txQueue` bound by the Bridge constructor and the process-global `_gtxQueue`
(bridge.cpp lines 5, 60-68).  In `runSocketTest` the two happen to be the same
queue, but the constructor accepts any queue reference. -/
structure TxQueues where
  txQueue : List EVPacket
  gtxQueue : List EVPacket
deriving Repr, DecidableEq

/-- One iteration of the queue drain in TxJob (bridge.cpp lines 154-165): the
emptiness check is on the member `_txQueue`, but `front()` and `pop()` are
called on the global `_gtxQueue`.  Returns the transmitted packet and the new
queue state; `none` when the member queue is empty (sleep branch) or when
`front()` hits an empty global queue (undefined behavior in C++, modelled as
no defined transmission). -/
def txJobIteration (s : TxQueues) : Option (EVPacket × TxQueues) :=
  if s.txQueue.isEmpty then none
  else
    match s.gtxQueue with
    | [] => none
    | p :: rest => some (p, { s with gtxQueue := rest })

/-- Claim C4 (code defect): with the constructor-supplied member queue holding
packet A and the global queue holding a different packet B, TxJob transmits B
— the front of the global `_gtxQueue` — and not the front of the queue it
checked for emptiness; and with the global queue empty it calls `front()` on
an empty queue, so no FIFO transmission of the supplied queue happens at all. -/
theorem txJob_pops_global_queue :
    txJobIteration ⟨[⟨1, 1, 0, []⟩], [⟨2, 2, 0, []⟩]⟩ =
      some (⟨2, 2, 0, []⟩, ⟨[⟨1, 1, 0, []⟩], []⟩) ∧
    (⟨2, 2, 0, []⟩ : EVPacket) ≠ ⟨1, 1, 0, []⟩ ∧
    txJobIteration ⟨[⟨1, 1, 0, []⟩], []⟩ = none := by
  decide

/-- The byte counts requested by one iteration of the named-pipe (WIN32) RxJob
for a frame declaring `dataSize` payload bytes: a 6-byte header `ReadFile`,
then — when the strict guard passes — a `dataSize`-byte payload `ReadFile`
(bridge.cpp lines 233, 248-253). -/
def pipeRxReadSizes (dataSize : Nat) : List Nat :=
  if dataSize < BRIDGE_BUFFER_SIZE - 6 then [6, dataSize] else [6]

/-- The byte counts requested by one iteration of the socket (unix) RxJob:
a single `recv` for up to `BRIDGE_BUFFER_SIZE` bytes (bridge.cpp line 272),
whose result — whatever prefix of the stream the OS delivers — is taken as the
whole packet. -/
def sockRxReadSizes : List Nat := [BRIDGE_BUFFER_SIZE]

/-- Claim C5 counterexample: for a frame with dataSize 5 the claim requires the
worker's reads to be exactly a 6-byte header read followed by a 5-byte payload
read; the socket RxJob instead issues a single read for the full
`BRIDGE_BUFFER_SIZE`-byte buffer, so its first read is not the 6-byte header. -/
theorem sock_rx_not_headerwise :
    sockRxReadSizes ≠ [6, 5] ∧
    sockRxReadSizes ≠ pipeRxReadSizes 5 ∧
    sockRxReadSizes.headI ≠ 6 := by
  decide

/-- Claim C5 amended: the header-then-payload exact-read discipline holds on
the named-pipe path only — it reads exactly 6 header bytes and then, when the
declared size passes the strict guard, exactly `dataSize` payload bytes —
while the socket path performs one `recv` of up to `BRIDGE_BUFFER_SIZE` bytes
per iteration. -/
theorem rx_read_pattern (d : Nat) (h : d < BRIDGE_BUFFER_SIZE - 6) :
    pipeRxReadSizes d = [6, d] ∧ sockRxReadSizes = [BRIDGE_BUFFER_SIZE] :=
  ⟨if_pos h, rfl⟩

/-- Claim C5 witness: the read pattern for a 5-byte payload frame. -/
theorem rx_read_pattern_witness :
    pipeRxReadSizes 5 = [6, 5] ∧ sockRxReadSizes = [BRIDGE_BUFFER_SIZE] :=
  rx_read_pattern 5 (by decide)

/-- Classification of one socket RxJob iteration by the value `recv` returned
(bridge.cpp lines 271-282): a positive count is a received chunk that is
processed; `-1` is treated as client disconnect — it is logged and `rx_run`
is cleared, ending the loop; any other value sleeps 500us and continues. -/
inductive RxStep
  | processed
  | disconnected
  | slept
deriving Repr, DecidableEq

/-- How the socket RxJob classifies one `recv` result (bridge.cpp 273-282). -/
def rxClassify (r : Int) : RxStep :=
  if r > 0 then RxStep.processed
  else if r = -1 then RxStep.disconnected
  else RxStep.slept

/-- The socket RxJob loop run over a trace of `recv` results: the loop keeps
iterating while `rx_run` holds and the disconnect branch clears `rx_run`, so
the iteration that observes the disconnect is the last one (bridge.cpp lines
226, 271-282). -/
def rxLoop : List Int → List RxStep
  | [] => []
  | r :: rest =>
    if rxClassify r = RxStep.disconnected then [RxStep.disconnected]
    else rxClassify r :: rxLoop rest

/-- Claim C6 (code defect): an orderly peer close makes every subsequent
`recv` on the blocking stream socket return 0, and the loop classifies 0 as
the sleep-and-continue branch (bridge.cpp lines 278-281), not as a
disconnect: after any number `n` of polling intervals the worker is still
polling the closed socket and the loop has not exited, so the disconnect
never terminates the loop within a bounded polling interval.  Only the error
return -1 — which the code mislabels as the client disconnect — ends the
loop. -/
theorem peer_close_never_exits_loop (n : Nat) :
    rxClassify 0 = RxStep.slept ∧
    rxClassify (-1) = RxStep.disconnected ∧
    rxLoop (List.replicate n 0) = List.replicate n RxStep.slept ∧
    RxStep.disconnected ∉ rxLoop (List.replicate n 0) := by
  have h0 : rxClassify 0 = RxStep.slept := by decide
  have hrep : rxLoop (List.replicate n 0) = List.replicate n RxStep.slept := by
    induction n with
    | zero => rfl
    | succ m ih => simp [List.replicate_succ, rxLoop, h0, ih]
  refine ⟨h0, by decide, hrep, ?_⟩
  rw [hrep]
  simp [List.mem_replicate]

/-- Transmit-engine lifecycle state on unix: the atomic run flag `tx_run`,
whether the worker thread is joinable, and the listening and client socket
descriptors (`none` models the sentinel -1). -/
structure TxEngine where
  run : Bool
  worker : Bool
  sock : Option Nat
  clientSock : Option Nat
deriving Repr, DecidableEq

/-- Receive-engine lifecycle state on unix, mirroring `rx_run`, the rx worker
and `rx_sock` / `client_rx_sock`. -/
structure RxEngine where
  run : Bool
  worker : Bool
  sock : Option Nat
  clientSock : Option Nat
deriving Repr, DecidableEq

/-- TxStop on unix (bridge.cpp lines 504-518): clear `tx_run`, join the worker
if joinable (the cleared flag makes the TxJob loop exit), and if `tx_sock` is
open, close it, reset both descriptors and unlink the address; returns 0. -/
def txStop (s : TxEngine) : TxEngine × Int :=
  let s1 : TxEngine := { s with run := false }
  let s2 : TxEngine := if s1.worker then { s1 with worker := false } else s1
  let s3 : TxEngine :=
    if s2.sock.isSome then { s2 with sock := none, clientSock := none } else s2
  (s3, 0)

/-- RxStop on unix (bridge.cpp lines 530-543): clear `rx_run`, join the worker
if joinable, and if `rx_sock` is open, close it, reset it and unlink the
address; returns 0.  (`client_rx_sock` is not reset by RxStop.) -/
def rxStop (s : RxEngine) : RxEngine × Int :=
  let s1 : RxEngine := { s with run := false }
  let s2 : RxEngine := if s1.worker then { s1 with worker := false } else s1
  let s3 : RxEngine := if s2.sock.isSome then { s2 with sock := none } else s2
  (s3, 0)

/-- Claim C7: TxStop and RxStop return 0 from every engine state — in
particular from the never-started constructor state and when called twice in
a row — leave no joinable worker thread, and are idempotent: a second stop
leaves the state of the first stop unchanged and again returns 0. -/
theorem stop_idempotent (tx : TxEngine) (rx : RxEngine) :
    (txStop tx).2 = 0 ∧ (rxStop rx).2 = 0 ∧
    (txStop tx).1.worker = false ∧ (rxStop rx).1.worker = false ∧
    txStop (txStop tx).1 = ((txStop tx).1, 0) ∧
    rxStop (rxStop rx).1 = ((rxStop rx).1, 0) := by
  obtain ⟨r, w, so, cs⟩ := tx
  obtain ⟨r2, w2, so2, cs2⟩ := rx
  cases w <;> cases so <;> cases w2 <;> cases so2 <;>
    simp [txStop, rxStop]

/-- Outcomes the OS hands InitTxBridge: the descriptor returned by `socket()`
(`none` models a negative return) and whether `bind` succeeds. -/
structure OsEnv where
  socketFd : Option Nat
  bindOk : Bool
deriving Repr, DecidableEq

/-- InitTxBridge on unix (bridge.cpp lines 555-583): store the result of
`socket()` in `tx_sock`, returning 1 if creation failed; unlink the stale
address and `bind`; on bind failure return 2 — without closing or resetting
`tx_sock`.  Returns 0 on success. -/
def initTxBridge (s : TxEngine) (os : OsEnv) : TxEngine × Int :=
  match os.socketFd with
  | none => ({ s with sock := none }, 1)
  | some fd =>
      if os.bindOk then ({ s with sock := some fd }, 0)
      else ({ s with sock := some fd }, 2)

/-- TxStart (bridge.cpp lines 328-343): if already running, TxStop first; then
InitTxBridge — a nonzero error is returned as-is; on success set `tx_run`,
spawn the worker thread and return 0. -/
def txStart (s : TxEngine) (os : OsEnv) : TxEngine × Int :=
  let s0 : TxEngine := if s.run then (txStop s).1 else s
  let r := initTxBridge s0 os
  if r.2 ≠ 0 then r
  else ({ r.1 with run := true, worker := true }, 0)

/-- Claim C8 counterexample: starting a stopped engine when `socket()` yields
descriptor 3 and `bind` fails returns error 2 with the engine not running and
no worker — but the freshly created socket descriptor remains stored in
`tx_sock`, contradicting the claim that no endpoint resource is retained. -/
theorem txStart_bindfail_retains_socket :
    (txStart ⟨false, false, none, none⟩ ⟨some 3, false⟩).2 = 2 ∧
    (txStart ⟨false, false, none, none⟩ ⟨some 3, false⟩).1.sock = some 3 := by
  decide

/-- Claim C8 amended: an already-running engine is stopped first; `txStart`
returns 0 exactly when socket creation and bind both succeed, in which case
the run flag is set and exactly one worker is active; on any setup failure the
nonzero error is returned with the run flag false and no worker spawned, but
`tx_sock` retains whatever `socket()` produced — after a failed `bind` the
created descriptor stays stored until a later stop closes it. -/
theorem txStart_semantics (s : TxEngine) (os : OsEnv)
    (hw : s.run = false → s.worker = false) :
    ((txStart s os).2 = 0 ↔ os.socketFd.isSome ∧ os.bindOk) ∧
    ((txStart s os).2 = 0 →
      (txStart s os).1.run = true ∧ (txStart s os).1.worker = true) ∧
    ((txStart s os).2 ≠ 0 → (txStart s os).1.run = false ∧
      (txStart s os).1.worker = false ∧ (txStart s os).1.sock = os.socketFd) := by
  obtain ⟨r, w, so, cs⟩ := s
  obtain ⟨fd, b⟩ := os
  cases r <;> cases w <;> cases so <;> cases fd <;> cases b <;>
    simp_all [txStart, txStop, initTxBridge]

/-- Claim C8 witness: the amended start semantics evaluated at a stopped
engine whose bind fails. -/
theorem txStart_semantics_witness :
    ((txStart ⟨false, false, none, none⟩ ⟨some 3, false⟩).2 = 0 ↔
      (Option.some 3).isSome ∧ (⟨some 3, false⟩ : OsEnv).bindOk) ∧
    ((txStart ⟨false, false, none, none⟩ ⟨some 3, false⟩).2 = 0 →
      (txStart ⟨false, false, none, none⟩ ⟨some 3, false⟩).1.run = true ∧
      (txStart ⟨false, false, none, none⟩ ⟨some 3, false⟩).1.worker = true) ∧
    ((txStart ⟨false, false, none, none⟩ ⟨some 3, false⟩).2 ≠ 0 →
      (txStart ⟨false, false, none, none⟩ ⟨some 3, false⟩).1.run = false ∧
      (txStart ⟨false, false, none, none⟩ ⟨some 3, false⟩).1.worker = false ∧
      (txStart ⟨false, false, none, none⟩ ⟨some 3, false⟩).1.sock =
        (⟨some 3, false⟩ : OsEnv).socketFd) :=
  txStart_semantics ⟨false, false, none, none⟩ ⟨some 3, false⟩ (by decide)

/-- Live heap allocations owned by one transmitted packet: the EVPacket struct
itself and the payload buffer its `data` field points to. -/
structure AllocState where
  structAllocs : Nat
  dataAllocs : Nat
deriving Repr, DecidableEq

/-- FreePacket (bridge.cpp lines 22-25): `free(packet->data)` then
`free(packet)` — releases both allocations. -/
def freePacket (h : AllocState) : AllocState :=
  { structAllocs := h.structAllocs - 1, dataAllocs := h.dataAllocs - 1 }

/-- The cleanup TxJob actually performs after writing a packet's bytes
(bridge.cpp line 180): `free(txPacket)` releases only the EVPacket struct;
the payload buffer `txPacket->data` is not freed. -/
def txJobCleanup (h : AllocState) : AllocState :=
  { h with structAllocs := h.structAllocs - 1 }

/-- Claim C9 (code defect): after transmitting a packet that owns one struct
allocation and one payload allocation — such as the runSocketTest packet with
its 5-byte payload — the cleanup in TxJob leaves the payload allocation live
(the buffer is leaked), whereas FreePacket, the repository's own full-release
helper, leaves neither allocation live. -/
theorem txJob_leaks_payload :
    (txJobCleanup ⟨1, 1⟩).structAllocs = 0 ∧
    (txJobCleanup ⟨1, 1⟩).dataAllocs = 1 ∧
    (freePacket ⟨1, 1⟩).structAllocs = 0 ∧
    (freePacket ⟨1, 1⟩).dataAllocs = 0 := by
  decide

end Bridge
